import Mathlib

/-!
# Verification of the metrics-server lifecycle orchestrator

A shallow embedding of `cmd/metrics-server/app/start.go` (package `app`):
the `MetricsServerOptions` structure, its `Config` method (configuration
assembly) and its `Run` method (startup orchestration).

External collaborators (k8s.io/apiserver options, client-go, and the
`pkg/{apiserver,manager,provider,sources}` packages of this repository,
which are outside the verified source tree) are modelled as an environment
of pure functions; the orchestrator threads their results exactly as the
Go code does and records every collaborator call in an event trace, so
that ordering and error-propagation properties become statements about
the trace and the returned error.
-/

namespace MetricsServer

/-- A Go `error` value: either a base error produced by a collaborator, or
an error wrapped by `fmt.Errorf("<stage>: %v", err)` with a stage message. -/
inductive GoError where
  | base (msg : String)
  | wrap (stage : String) (inner : GoError)
deriving Repr, DecidableEq

/-- Whether an error is a stage-wrapped error (`fmt.Errorf("<stage>: %v", err)`). -/
def GoError.isWrapped : GoError → Bool
  | .wrap _ _ => true
  | .base _ => false

/-- `genericoptions.SecureServingOptions`, reduced to the serving-certificate
material that steps of `Config` read and populate (the `ServerCert` cert/key
paths). Empty strings model unset paths (Go zero values). -/
structure SecureServingOptions where
  certFile : String
  keyFile : String
deriving Repr, DecidableEq

/-- `genericoptions.DelegatingAuthenticationOptions`, opaque to the orchestrator. -/
structure DelegatingAuthenticationOptions where
  id : Nat
deriving Repr, DecidableEq

/-- `genericoptions.DelegatingAuthorizationOptions`, opaque to the orchestrator. -/
structure DelegatingAuthorizationOptions where
  id : Nat
deriving Repr, DecidableEq

/-- `genericoptions.FeatureOptions`, opaque to the orchestrator. -/
structure FeatureOptions where
  id : Nat
deriving Repr, DecidableEq

/-- The populated secure-serving section of the generic server config
(`serverConfig.SecureServing` after `SecureServingOptions.ApplyTo`). -/
structure SecureServingInfo where
  id : Nat
deriving Repr, DecidableEq

/-- The populated authentication section of the generic server config. -/
structure AuthenticationInfo where
  id : Nat
deriving Repr, DecidableEq

/-- The populated authorization section of the generic server config. -/
structure AuthorizationInfo where
  id : Nat
deriving Repr, DecidableEq

/-- Opaque handle for a `rest.Config` client configuration. -/
abbrev RestConfig := Nat

/-- Opaque handle for a `kubernetes.Interface` client. -/
abbrev KubeClient := Nat

/-- Opaque handle for a shared informer factory. -/
abbrev InformerFactory := Nat

/-- Opaque handle for the node lister obtained from the informer factory. -/
abbrev NodeLister := Nat

/-- Opaque handle for a kubelet client. -/
abbrev KubeletClient := Nat

/-- Opaque handle for a summary source provider. -/
abbrev SummaryProvider := Nat

/-- Opaque handle for a source manager. -/
abbrev SourceManager := Nat

/-- Opaque handle for the in-memory metric sink. -/
abbrev MetricSink := Nat

/-- Opaque handle for the metrics query provider. -/
abbrev MetricsProvider := Nat

/-- Opaque handle for the main manager. -/
abbrev Manager := Nat

/-- Opaque handle for the completed API server. -/
abbrev Server := Nat

/-- `summary.KubeletClientConfig`: connection parameters built by
`summary.GetKubeletConfig(clientConfig, port)`. -/
structure KubeletClientConfig where
  restConfig : RestConfig
  port : Int
deriving Repr, DecidableEq

/-- Modelled from the spec: `summary.GetKubeletConfig` (in `pkg/sources/summary`,
outside the verified source tree) builds the per-agent connection parameters
from the cluster client configuration and the per-agent port. -/
def GetKubeletConfig (clientConfig : RestConfig) (port : Int) : KubeletClientConfig :=
  { restConfig := clientConfig, port := port }

/-- The generic API server configuration (`genericapiserver.Config`), reduced to
the fields `Config`/`Run` write: secure-serving / authentication / authorization
sections, the swagger config, and the metrics flag. -/
structure GenericConfig where
  SecureServing : Option SecureServingInfo
  Authentication : Option AuthenticationInfo
  Authorization : Option AuthorizationInfo
  SwaggerConfigSet : Bool
  EnableMetrics : Bool
deriving Repr, DecidableEq

/-- `genericapiserver.NewConfig`: a fresh generic config with zero-valued fields. -/
def NewConfig : GenericConfig :=
  { SecureServing := none
    Authentication := none
    Authorization := none
    SwaggerConfigSet := false
    EnableMetrics := false }

/-- `apiserver.ProviderConfig`: the two provider-injection slots. -/
structure ProviderConfig where
  Node : Option MetricsProvider
  Pod : Option MetricsProvider
deriving Repr, DecidableEq

/-- `apiserver.Config`: the materialized service configuration. -/
structure Config where
  GenericConfig : GenericConfig
  ProviderConfig : ProviderConfig
deriving Repr, DecidableEq

/-- One observable collaborator call made by `Config`/`Run`, with the arguments
that the claims are about. `applyFeatures` is vocabulary for the spec's
feature-gate application step; whether the code ever emits it is settled below. -/
inductive Event where
  | maybeSelfSignedCerts (host : String) (alternateDNS : List String) (ips : List String)
  | applySecureServing (opts : SecureServingOptions)
  | applyAuthentication (secureServing : Option SecureServingInfo)
  | applyAuthorization
  | applyFeatures
  | setDefaultSwagger
  | setEnableMetrics
  | loadKubeconfigFile (path : String)
  | resolveInClusterConfig
  | newKubeClient
  | newSharedInformerFactory (resync : Nat)
  | getKubeletConfig (port : Int)
  | newKubeletClient
  | newSummaryProvider
  | newSourceManager
  | newSinkProvider
  | newManager (resolution : Nat)
  | completeAndNew (node : Option MetricsProvider) (pod : Option MetricsProvider)
  | addHealthzCheck (name : String)
  | runUntil (stopCh : Nat)
  | prepareRunRun (stopCh : Nat)
deriving Repr, DecidableEq

/-- The environment of external collaborators: each field is the (pure) result
of one collaborator call, as a function of the arguments the Go code passes. -/
structure Env where
  generateSelfSigned : String → List String → List String → Except GoError (String × String)
  applySecureServing : SecureServingOptions → Except GoError SecureServingInfo
  applyAuthentication : DelegatingAuthenticationOptions → Option SecureServingInfo →
    Except GoError AuthenticationInfo
  applyAuthorization : DelegatingAuthorizationOptions → Except GoError AuthorizationInfo
  loadKubeconfig : String → Except GoError RestConfig
  inClusterConfig : Except GoError RestConfig
  newForConfig : RestConfig → Except GoError KubeClient
  newSharedInformerFactory : KubeClient → Nat → InformerFactory
  nodesLister : InformerFactory → NodeLister
  kubeletClientFor : KubeletClientConfig → Except GoError KubeletClient
  newSummaryProvider : NodeLister → KubeletClient → SummaryProvider
  defaultMetricsScrapeTimeout : Nat
  newSourceManager : SummaryProvider → Nat → Except GoError SourceManager
  newSinkProvider : MetricSink × MetricsProvider
  newManager : SourceManager → MetricSink → Nat → Manager
  completeNew : Config → InformerFactory → Except GoError Server
  serverRun : Option GoError

/-- Modelled from the spec: `SecureServingOptions.MaybeDefaultWithSelfSignedCerts`
(k8s.io/apiserver, outside the verified source tree): if no TLS serving material
was supplied (both certificate paths empty), generate a self-signed certificate
scoped to the given hostname / alternate DNS names / IPs and populate the
certificate paths in the options (an in-place mutation in Go, modelled by
returning the updated options); if material was supplied, leave the options
unchanged. Generation may fail. -/
def MaybeDefaultWithSelfSignedCerts (env : Env) (s : SecureServingOptions)
    (publicAddress : String) (alternateDNS : List String) (alternateIPs : List String) :
    Except GoError SecureServingOptions :=
  if s.certFile = "" ∧ s.keyFile = "" then
    match env.generateSelfSigned publicAddress alternateDNS alternateIPs with
    | .error e => .error e
    | .ok (cert, key) => .ok { s with certFile := cert, keyFile := key }
  else
    .ok s

/-- `app.MetricsServerOptions` from `cmd/metrics-server/app/start.go`. -/
structure MetricsServerOptions where
  SecureServing : SecureServingOptions
  Authentication : DelegatingAuthenticationOptions
  Authorization : DelegatingAuthorizationOptions
  Features : FeatureOptions
  Kubeconfig : String
  DisableAuthForTesting : Bool
  MetricResolution : Nat
  KubeletPort : Int
  InsecureKubelet : Bool
deriving Repr, DecidableEq

/-- `app.NewMetricsServerOptions`: default options. Sub-option defaults come from
external constructors (modelled as zero values / empty certificate paths);
`MetricResolution` is 60 seconds (in nanoseconds, Go `time.Duration`) and
`KubeletPort` is 10250, as in the source. -/
def NewMetricsServerOptions : MetricsServerOptions :=
  { SecureServing := { certFile := "", keyFile := "" }
    Authentication := { id := 0 }
    Authorization := { id := 0 }
    Features := { id := 0 }
    Kubeconfig := ""
    DisableAuthForTesting := false
    MetricResolution := 60 * 1000000000
    KubeletPort := 10250
    InsecureKubelet := false }

/-- Result of `MetricsServerOptions.Config`: the Go pair `(*apiserver.Config, error)`
plus the event trace and the post-call state of the (pointer-shared)
secure-serving options, which step 1 may have mutated. -/
structure ConfigResult where
  trace : List Event
  config : Option Config
  err : Option GoError
  secureServingAfter : SecureServingOptions
deriving Repr, DecidableEq

/-- `MetricsServerOptions.Config` from `start.go` lines 101–125, translated
branch for branch: (1) `MaybeDefaultWithSelfSignedCerts("localhost", nil,
[]net.IP{127.0.0.1})`, wrapping its error as `"error creating self-signed
certificates: %v"`; (2) `SecureServing.ApplyTo(&serverConfig.SecureServing)`,
returning its error unmodified; (3) unless `DisableAuthForTesting`,
`Authentication.ApplyTo(&serverConfig.Authentication, serverConfig.SecureServing,
nil)` then `Authorization.ApplyTo(&serverConfig.Authorization)`, each returning
its error unmodified; then the default swagger config is set and the
`apiserver.Config` with an empty `ProviderConfig` is returned. -/
def MetricsServerOptions.Config (env : Env) (o : MetricsServerOptions) : ConfigResult :=
  match MaybeDefaultWithSelfSignedCerts env o.SecureServing "localhost" [] ["127.0.0.1"] with
  | .error e =>
      { trace := [.maybeSelfSignedCerts "localhost" [] ["127.0.0.1"]]
        config := none
        err := some (.wrap "error creating self-signed certificates" e)
        secureServingAfter := o.SecureServing }
  | .ok ss =>
      let serverConfig := NewConfig
      match env.applySecureServing ss with
      | .error e =>
          { trace := [.maybeSelfSignedCerts "localhost" [] ["127.0.0.1"],
                      .applySecureServing ss]
            config := none
            err := some e
            secureServingAfter := ss }
      | .ok ssInfo =>
          let serverConfig := { serverConfig with SecureServing := some ssInfo }
          if o.DisableAuthForTesting then
            { trace := [.maybeSelfSignedCerts "localhost" [] ["127.0.0.1"],
                        .applySecureServing ss,
                        .setDefaultSwagger]
              config := some
                { GenericConfig := { serverConfig with SwaggerConfigSet := true }
                  ProviderConfig := { Node := none, Pod := none } }
              err := none
              secureServingAfter := ss }
          else
            match env.applyAuthentication o.Authentication serverConfig.SecureServing with
            | .error e =>
                { trace := [.maybeSelfSignedCerts "localhost" [] ["127.0.0.1"],
                            .applySecureServing ss,
                            .applyAuthentication serverConfig.SecureServing]
                  config := none
                  err := some e
                  secureServingAfter := ss }
            | .ok authnInfo =>
                match env.applyAuthorization o.Authorization with
                | .error e =>
                    { trace := [.maybeSelfSignedCerts "localhost" [] ["127.0.0.1"],
                                .applySecureServing ss,
                                .applyAuthentication serverConfig.SecureServing,
                                .applyAuthorization]
                      config := none
                      err := some e
                      secureServingAfter := ss }
                | .ok authzInfo =>
                    { trace := [.maybeSelfSignedCerts "localhost" [] ["127.0.0.1"],
                                .applySecureServing ss,
                                .applyAuthentication serverConfig.SecureServing,
                                .applyAuthorization,
                                .setDefaultSwagger]
                      config := some
                        { GenericConfig :=
                            { serverConfig with
                                Authentication := some authnInfo
                                Authorization := some authzInfo
                                SwaggerConfigSet := true }
                          ProviderConfig := { Node := none, Pod := none } }
                      err := none
                      secureServingAfter := ss }

/-- Result of `MetricsServerOptions.Run`: the returned Go `error`, the event
trace, and the post-call state of the secure-serving options. -/
structure RunResult where
  trace : List Event
  err : Option GoError
  secureServingAfter : SecureServingOptions
deriving Repr, DecidableEq

set_option linter.unusedVariables false in
/-- The tail of `Run` after the cluster client configuration has been resolved
(`start.go` lines 149–195), translated branch for branch: client construction,
informer factory with resync 0, kubelet config/client, summary provider, source
manager, sink/provider pair, main manager (including the error re-check the Go
code performs there), provider injection, completion, health check registration,
and the two run calls. `tr` is the trace so far and `ssAfter` the secure-serving
options state after `Config`. -/
def runWithClientConfig (env : Env) (o : MetricsServerOptions) (stopCh : Nat)
    (tr : List Event) (ssAfter : SecureServingOptions) (config : Config)
    (clientConfig : RestConfig) : RunResult :=
  match env.newForConfig clientConfig with
  | .error e =>
      { trace := tr ++ [Event.newKubeClient]
        err := some (.wrap "unable to construct lister client" e)
        secureServingAfter := ssAfter }
  | .ok kubeClient =>
      let informerFactory := env.newSharedInformerFactory kubeClient 0
      let kubeletConfig := GetKubeletConfig clientConfig o.KubeletPort
      let tr := tr ++ [Event.newKubeClient, Event.newSharedInformerFactory 0,
                       Event.getKubeletConfig o.KubeletPort]
      match env.kubeletClientFor kubeletConfig with
      | .error e =>
          { trace := tr ++ [Event.newKubeletClient]
            err := some (.wrap "unable to construct a client to connect to the kubelets" e)
            secureServingAfter := ssAfter }
      | .ok kubeletClient =>
          let sourceProvider := env.newSummaryProvider (env.nodesLister informerFactory) kubeletClient
          let tr := tr ++ [Event.newKubeletClient, Event.newSummaryProvider]
          match env.newSourceManager sourceProvider env.defaultMetricsScrapeTimeout with
          | .error e =>
              { trace := tr ++ [Event.newSourceManager]
                err := some (.wrap "unable to initialize source manager" e)
                secureServingAfter := ssAfter }
          | .ok sourceManager =>
              let metricSink := env.newSinkProvider.1
              let metricsProvider := env.newSinkProvider.2
              let mgr := env.newManager sourceManager metricSink o.MetricResolution
              let tr := tr ++ [Event.newSourceManager, Event.newSinkProvider,
                               Event.newManager o.MetricResolution]
              -- the Go code re-checks its `err` variable here; on this path it
              -- still holds the nil error left by the successful
              -- NewSourceManager call, since NewManager returns no error
              let err : Option GoError := none
              match err with
              | some e =>
                  { trace := tr
                    err := some (.wrap "unable to create main manager" e)
                    secureServingAfter := ssAfter }
              | none =>
                  let config := { config with
                    ProviderConfig := { Node := some metricsProvider, Pod := some metricsProvider } }
                  match env.completeNew config informerFactory with
                  | .error e =>
                      { trace := tr ++ [Event.completeAndNew config.ProviderConfig.Node
                                          config.ProviderConfig.Pod]
                        err := some e
                        secureServingAfter := ssAfter }
                  | .ok server =>
                      { trace := tr ++ [Event.completeAndNew config.ProviderConfig.Node
                                          config.ProviderConfig.Pod,
                                        Event.addHealthzCheck "healthz",
                                        Event.runUntil stopCh,
                                        Event.prepareRunRun stopCh]
                        err := env.serverRun
                        secureServingAfter := ssAfter }

/-- The part of `Run` that follows a successful `Config` call (`start.go` lines
133–147): enable metrics on the generic config, then resolve the cluster client
configuration — from the kubeconfig file when `len(o.Kubeconfig) > 0`, otherwise
from the ambient in-cluster identity — wrapping a failure of either branch as
`"unable to construct lister client config: %v"`. -/
def runWithConfig (env : Env) (o : MetricsServerOptions) (stopCh : Nat)
    (tr : List Event) (ssAfter : SecureServingOptions) (config : Config) : RunResult :=
  let config := { config with
    GenericConfig := { config.GenericConfig with EnableMetrics := true } }
  let tr := tr ++ [Event.setEnableMetrics]
  if o.Kubeconfig.length > 0 then
    match env.loadKubeconfig o.Kubeconfig with
    | .error e =>
        { trace := tr ++ [Event.loadKubeconfigFile o.Kubeconfig]
          err := some (.wrap "unable to construct lister client config" e)
          secureServingAfter := ssAfter }
    | .ok clientConfig =>
        runWithClientConfig env o stopCh (tr ++ [Event.loadKubeconfigFile o.Kubeconfig])
          ssAfter config clientConfig
  else
    match env.inClusterConfig with
    | .error e =>
        { trace := tr ++ [Event.resolveInClusterConfig]
          err := some (.wrap "unable to construct lister client config" e)
          secureServingAfter := ssAfter }
    | .ok clientConfig =>
        runWithClientConfig env o stopCh (tr ++ [Event.resolveInClusterConfig])
          ssAfter config clientConfig

/-- `MetricsServerOptions.Run` from `start.go` lines 127–196: grab the config
(returning its error unmodified on failure), then hand off to the client /
pipeline / serving stages. A nil config with a nil error would make the Go code
dereference a nil pointer; `Config` never returns that pair (proved below). -/
def MetricsServerOptions.Run (env : Env) (o : MetricsServerOptions) (stopCh : Nat) : RunResult :=
  let cr := o.Config env
  match cr.err with
  | some e =>
      { trace := cr.trace, err := some e, secureServingAfter := cr.secureServingAfter }
  | none =>
      match cr.config with
      | none =>
          { trace := cr.trace
            err := some (.base "nil pointer dereference")
            secureServingAfter := cr.secureServingAfter }
      | some config =>
          runWithConfig env o stopCh cr.trace cr.secureServingAfter config

/-- A fully succeeding collaborator environment, for concrete instantiations. -/
def envOk : Env :=
  { generateSelfSigned := fun _ _ _ => .ok ("apiserver.crt", "apiserver.key")
    applySecureServing := fun _ => .ok { id := 1 }
    applyAuthentication := fun _ _ => .ok { id := 2 }
    applyAuthorization := fun _ => .ok { id := 3 }
    loadKubeconfig := fun _ => .ok 4
    inClusterConfig := .ok 5
    newForConfig := fun _ => .ok 6
    newSharedInformerFactory := fun _ _ => 7
    nodesLister := fun _ => 8
    kubeletClientFor := fun _ => .ok 9
    newSummaryProvider := fun _ _ => 10
    defaultMetricsScrapeTimeout := 20000000000
    newSourceManager := fun _ _ => .ok 11
    newSinkProvider := (12, 13)
    newManager := fun _ _ _ => 14
    completeNew := fun _ _ => .ok 15
    serverRun := none }

/-- Events of the authentication/authorization delegation step of `Config`. -/
def Event.isAuthStep : Event → Bool
  | .applyAuthentication _ => true
  | .applyAuthorization => true
  | _ => false

/-- Events of the secure-serving application step or the authentication /
authorization delegation step of `Config`. -/
def Event.isServingAuthStep : Event → Bool
  | .applySecureServing _ => true
  | .applyAuthentication _ => true
  | .applyAuthorization => true
  | _ => false

/-- Events that can be emitted by a `Config` call (the configuration assembly
steps), as opposed to the client / pipeline / serving stages of `Run`. -/
def Event.isConfigStep : Event → Bool
  | .maybeSelfSignedCerts _ _ _ => true
  | .applySecureServing _ => true
  | .applyAuthentication _ => true
  | .applyAuthorization => true
  | .applyFeatures => true
  | .setDefaultSwagger => true
  | _ => false

/-- Events that start a long-running loop: the manager's periodic loop
(`mgr.RunUntil`) or the API server's accept loop (`PrepareRun().Run`). -/
def Event.isStartLoop : Event → Bool
  | .runUntil _ => true
  | .prepareRunRun _ => true
  | _ => false

/-- Whether a `Run` result's error is the `"unable to create main manager"`
wrap produced by the error check after `manager.NewManager`. -/
def RunResult.isCreateManagerErr (r : RunResult) : Bool :=
  match r.err with
  | some (.wrap "unable to create main manager" _) => true
  | _ => false

/-- The first event of any `Config` trace. -/
def certsEvent : Event := .maybeSelfSignedCerts "localhost" [] ["127.0.0.1"]

/-- The cluster client credential resolution of `Run` (`start.go` lines 136–144):
the kubeconfig file when the path is non-empty, else the in-cluster identity. -/
def clientConfigOf (env : Env) (o : MetricsServerOptions) : Except GoError RestConfig :=
  if o.Kubeconfig.length > 0 then env.loadKubeconfig o.Kubeconfig else env.inClusterConfig

/-- The event recorded by the credential resolution step: a kubeconfig-file load
when the path is non-empty, else an in-cluster identity resolution. -/
def clientEvent (o : MetricsServerOptions) : Event :=
  if o.Kubeconfig.length > 0 then .loadKubeconfigFile o.Kubeconfig
  else .resolveInClusterConfig

set_option linter.unusedVariables false in
/-- `runWithClientConfig` with the error check that follows `manager.NewManager`
(`start.go` lines 176–178) removed; everything else is identical. Comparing
`Run` against this variant settles whether that check is reachable. -/
def runWithClientConfigElided (env : Env) (o : MetricsServerOptions) (stopCh : Nat)
    (tr : List Event) (ssAfter : SecureServingOptions) (config : Config)
    (clientConfig : RestConfig) : RunResult :=
  match env.newForConfig clientConfig with
  | .error e =>
      { trace := tr ++ [Event.newKubeClient]
        err := some (.wrap "unable to construct lister client" e)
        secureServingAfter := ssAfter }
  | .ok kubeClient =>
      let informerFactory := env.newSharedInformerFactory kubeClient 0
      let kubeletConfig := GetKubeletConfig clientConfig o.KubeletPort
      let tr := tr ++ [Event.newKubeClient, Event.newSharedInformerFactory 0,
                       Event.getKubeletConfig o.KubeletPort]
      match env.kubeletClientFor kubeletConfig with
      | .error e =>
          { trace := tr ++ [Event.newKubeletClient]
            err := some (.wrap "unable to construct a client to connect to the kubelets" e)
            secureServingAfter := ssAfter }
      | .ok kubeletClient =>
          let sourceProvider := env.newSummaryProvider (env.nodesLister informerFactory) kubeletClient
          let tr := tr ++ [Event.newKubeletClient, Event.newSummaryProvider]
          match env.newSourceManager sourceProvider env.defaultMetricsScrapeTimeout with
          | .error e =>
              { trace := tr ++ [Event.newSourceManager]
                err := some (.wrap "unable to initialize source manager" e)
                secureServingAfter := ssAfter }
          | .ok sourceManager =>
              let metricsProvider := env.newSinkProvider.2
              let tr := tr ++ [Event.newSourceManager, Event.newSinkProvider,
                               Event.newManager o.MetricResolution]
              let config := { config with
                ProviderConfig := { Node := some metricsProvider, Pod := some metricsProvider } }
              match env.completeNew config informerFactory with
              | .error e =>
                  { trace := tr ++ [Event.completeAndNew config.ProviderConfig.Node
                                      config.ProviderConfig.Pod]
                    err := some e
                    secureServingAfter := ssAfter }
              | .ok server =>
                  { trace := tr ++ [Event.completeAndNew config.ProviderConfig.Node
                                      config.ProviderConfig.Pod,
                                    Event.addHealthzCheck "healthz",
                                    Event.runUntil stopCh,
                                    Event.prepareRunRun stopCh]
                    err := env.serverRun
                    secureServingAfter := ssAfter }

/-- `runWithConfig`, but continuing with `runWithClientConfigElided`. -/
def runWithConfigElided (env : Env) (o : MetricsServerOptions) (stopCh : Nat)
    (tr : List Event) (ssAfter : SecureServingOptions) (config : Config) : RunResult :=
  let config := { config with
    GenericConfig := { config.GenericConfig with EnableMetrics := true } }
  let tr := tr ++ [Event.setEnableMetrics]
  if o.Kubeconfig.length > 0 then
    match env.loadKubeconfig o.Kubeconfig with
    | .error e =>
        { trace := tr ++ [Event.loadKubeconfigFile o.Kubeconfig]
          err := some (.wrap "unable to construct lister client config" e)
          secureServingAfter := ssAfter }
    | .ok clientConfig =>
        runWithClientConfigElided env o stopCh (tr ++ [Event.loadKubeconfigFile o.Kubeconfig])
          ssAfter config clientConfig
  else
    match env.inClusterConfig with
    | .error e =>
        { trace := tr ++ [Event.resolveInClusterConfig]
          err := some (.wrap "unable to construct lister client config" e)
          secureServingAfter := ssAfter }
    | .ok clientConfig =>
        runWithClientConfigElided env o stopCh (tr ++ [Event.resolveInClusterConfig])
          ssAfter config clientConfig

/-- `Run`, but with the dead `"unable to create main manager"` error check
removed from the pipeline stage (via `runWithClientConfigElided`). -/
def RunElided (env : Env) (o : MetricsServerOptions) (stopCh : Nat) : RunResult :=
  let cr := o.Config env
  match cr.err with
  | some e =>
      { trace := cr.trace, err := some e, secureServingAfter := cr.secureServingAfter }
  | none =>
      match cr.config with
      | none =>
          { trace := cr.trace
            err := some (.base "nil pointer dereference")
            secureServingAfter := cr.secureServingAfter }
      | some config =>
          runWithConfigElided env o stopCh cr.trace cr.secureServingAfter config

/-- `envOk` with a failing secure-serving application step. -/
def envApplyErr : Env :=
  { envOk with applySecureServing := fun _ => .error (.base "apply failed") }

/-- `envOk` with a failing kubeconfig loader. -/
def envLoadErr : Env :=
  { envOk with loadKubeconfig := fun _ => .error (.base "no such file") }

/-- `envOk` with a failing in-cluster identity resolution. -/
def envInClusterErr : Env :=
  { envOk with inClusterConfig := .error (.base "not in cluster") }

/-- `envOk` with a failing self-signed certificate generation. -/
def envGenErr : Env :=
  { envOk with generateSelfSigned := fun _ _ _ => .error (.base "keygen failed") }

/-- Default options with an explicit kubeconfig path. -/
def optsKubeconfig : MetricsServerOptions :=
  { NewMetricsServerOptions with Kubeconfig := "/etc/kubeconfig" }

/-- Default options with TLS serving material already supplied. -/
def optsWithCerts : MetricsServerOptions :=
  { NewMetricsServerOptions with
      SecureServing := { certFile := "supplied.crt", keyFile := "supplied.key" } }

/-- Default options with the test-only authn/authz bypass flag set. -/
def optsNoAuth : MetricsServerOptions :=
  { NewMetricsServerOptions with DisableAuthForTesting := true }

lemma Config_genErr {env : Env} {o : MetricsServerOptions} {e : GoError}
    (hgen : MaybeDefaultWithSelfSignedCerts env o.SecureServing "localhost" [] ["127.0.0.1"]
      = .error e) :
    o.Config env =
      { trace := [certsEvent]
        config := none
        err := some (.wrap "error creating self-signed certificates" e)
        secureServingAfter := o.SecureServing } := by
  unfold MetricsServerOptions.Config
  simp [hgen, certsEvent]

lemma Config_applyErr {env : Env} {o : MetricsServerOptions} {ss : SecureServingOptions}
    {e : GoError}
    (hgen : MaybeDefaultWithSelfSignedCerts env o.SecureServing "localhost" [] ["127.0.0.1"]
      = .ok ss)
    (happ : env.applySecureServing ss = .error e) :
    o.Config env =
      { trace := [certsEvent, .applySecureServing ss]
        config := none
        err := some e
        secureServingAfter := ss } := by
  unfold MetricsServerOptions.Config
  simp [hgen, happ, certsEvent]

lemma Config_noAuth {env : Env} {o : MetricsServerOptions} {ss : SecureServingOptions}
    {info : SecureServingInfo}
    (hgen : MaybeDefaultWithSelfSignedCerts env o.SecureServing "localhost" [] ["127.0.0.1"]
      = .ok ss)
    (happ : env.applySecureServing ss = .ok info)
    (hd : o.DisableAuthForTesting = true) :
    o.Config env =
      { trace := [certsEvent, .applySecureServing ss, .setDefaultSwagger]
        config := some
          { GenericConfig :=
              { SecureServing := some info
                Authentication := none
                Authorization := none
                SwaggerConfigSet := true
                EnableMetrics := false }
            ProviderConfig := { Node := none, Pod := none } }
        err := none
        secureServingAfter := ss } := by
  unfold MetricsServerOptions.Config
  simp [hgen, happ, hd, certsEvent, NewConfig]

lemma Config_authnErr {env : Env} {o : MetricsServerOptions} {ss : SecureServingOptions}
    {info : SecureServingInfo} {e : GoError}
    (hgen : MaybeDefaultWithSelfSignedCerts env o.SecureServing "localhost" [] ["127.0.0.1"]
      = .ok ss)
    (happ : env.applySecureServing ss = .ok info)
    (hd : o.DisableAuthForTesting = false)
    (hauthn : env.applyAuthentication o.Authentication (some info) = .error e) :
    o.Config env =
      { trace := [certsEvent, .applySecureServing ss, .applyAuthentication (some info)]
        config := none
        err := some e
        secureServingAfter := ss } := by
  unfold MetricsServerOptions.Config
  simp [hgen, happ, hd, hauthn, certsEvent, NewConfig]

lemma Config_authzErr {env : Env} {o : MetricsServerOptions} {ss : SecureServingOptions}
    {info : SecureServingInfo} {a : AuthenticationInfo} {e : GoError}
    (hgen : MaybeDefaultWithSelfSignedCerts env o.SecureServing "localhost" [] ["127.0.0.1"]
      = .ok ss)
    (happ : env.applySecureServing ss = .ok info)
    (hd : o.DisableAuthForTesting = false)
    (hauthn : env.applyAuthentication o.Authentication (some info) = .ok a)
    (hauthz : env.applyAuthorization o.Authorization = .error e) :
    o.Config env =
      { trace := [certsEvent, .applySecureServing ss, .applyAuthentication (some info),
                  .applyAuthorization]
        config := none
        err := some e
        secureServingAfter := ss } := by
  unfold MetricsServerOptions.Config
  simp [hgen, happ, hd, hauthn, hauthz, certsEvent, NewConfig]

lemma Config_ok {env : Env} {o : MetricsServerOptions} {ss : SecureServingOptions}
    {info : SecureServingInfo} {a : AuthenticationInfo} {z : AuthorizationInfo}
    (hgen : MaybeDefaultWithSelfSignedCerts env o.SecureServing "localhost" [] ["127.0.0.1"]
      = .ok ss)
    (happ : env.applySecureServing ss = .ok info)
    (hd : o.DisableAuthForTesting = false)
    (hauthn : env.applyAuthentication o.Authentication (some info) = .ok a)
    (hauthz : env.applyAuthorization o.Authorization = .ok z) :
    o.Config env =
      { trace := [certsEvent, .applySecureServing ss, .applyAuthentication (some info),
                  .applyAuthorization, .setDefaultSwagger]
        config := some
          { GenericConfig :=
              { SecureServing := some info
                Authentication := some a
                Authorization := some z
                SwaggerConfigSet := true
                EnableMetrics := false }
            ProviderConfig := { Node := none, Pod := none } }
        err := none
        secureServingAfter := ss } := by
  unfold MetricsServerOptions.Config
  simp [hgen, happ, hd, hauthn, hauthz, certsEvent, NewConfig]

lemma Run_configErr {env : Env} {o : MetricsServerOptions} {stopCh : Nat} {e : GoError}
    (h : (o.Config env).err = some e) :
    MetricsServerOptions.Run env o stopCh =
      { trace := (o.Config env).trace
        err := some e
        secureServingAfter := (o.Config env).secureServingAfter } := by
  unfold MetricsServerOptions.Run
  simp [h]

lemma Run_configOk {env : Env} {o : MetricsServerOptions} {stopCh : Nat} {c : Config}
    (herr : (o.Config env).err = none) (hc : (o.Config env).config = some c) :
    MetricsServerOptions.Run env o stopCh =
      runWithConfig env o stopCh (o.Config env).trace (o.Config env).secureServingAfter c := by
  unfold MetricsServerOptions.Run
  simp [herr, hc]

lemma runWithConfig_loadErr {env : Env} {o : MetricsServerOptions} {stopCh : Nat}
    {tr : List Event} {ssA : SecureServingOptions} {c : Config} {e : GoError}
    (hk : o.Kubeconfig.length > 0) (h : env.loadKubeconfig o.Kubeconfig = .error e) :
    runWithConfig env o stopCh tr ssA c =
      { trace := tr ++ [Event.setEnableMetrics, Event.loadKubeconfigFile o.Kubeconfig]
        err := some (.wrap "unable to construct lister client config" e)
        secureServingAfter := ssA } := by
  unfold runWithConfig
  simp [hk, h]

lemma runWithConfig_loadOk {env : Env} {o : MetricsServerOptions} {stopCh : Nat}
    {tr : List Event} {ssA : SecureServingOptions} {c : Config} {cc : RestConfig}
    (hk : o.Kubeconfig.length > 0) (h : env.loadKubeconfig o.Kubeconfig = .ok cc) :
    runWithConfig env o stopCh tr ssA c =
      runWithClientConfig env o stopCh
        (tr ++ [Event.setEnableMetrics, Event.loadKubeconfigFile o.Kubeconfig]) ssA
        { c with GenericConfig := { c.GenericConfig with EnableMetrics := true } } cc := by
  unfold runWithConfig
  simp [hk, h]

lemma runWithConfig_inClusterErr {env : Env} {o : MetricsServerOptions} {stopCh : Nat}
    {tr : List Event} {ssA : SecureServingOptions} {c : Config} {e : GoError}
    (hk : o.Kubeconfig = "") (h : env.inClusterConfig = .error e) :
    runWithConfig env o stopCh tr ssA c =
      { trace := tr ++ [Event.setEnableMetrics, Event.resolveInClusterConfig]
        err := some (.wrap "unable to construct lister client config" e)
        secureServingAfter := ssA } := by
  unfold runWithConfig
  simp [hk, h]

lemma runWithConfig_inClusterOk {env : Env} {o : MetricsServerOptions} {stopCh : Nat}
    {tr : List Event} {ssA : SecureServingOptions} {c : Config} {cc : RestConfig}
    (hk : o.Kubeconfig = "") (h : env.inClusterConfig = .ok cc) :
    runWithConfig env o stopCh tr ssA c =
      runWithClientConfig env o stopCh
        (tr ++ [Event.setEnableMetrics, Event.resolveInClusterConfig]) ssA
        { c with GenericConfig := { c.GenericConfig with EnableMetrics := true } } cc := by
  unfold runWithConfig
  simp [hk, h]

lemma rwcc_newForConfigErr {env : Env} {o : MetricsServerOptions} {stopCh : Nat}
    {tr : List Event} {ssA : SecureServingOptions} {c : Config} {cc : RestConfig} {e : GoError}
    (h : env.newForConfig cc = .error e) :
    runWithClientConfig env o stopCh tr ssA c cc =
      { trace := tr ++ [Event.newKubeClient]
        err := some (.wrap "unable to construct lister client" e)
        secureServingAfter := ssA } := by
  unfold runWithClientConfig
  simp [h]

lemma rwcc_kubeletErr {env : Env} {o : MetricsServerOptions} {stopCh : Nat}
    {tr : List Event} {ssA : SecureServingOptions} {c : Config} {cc : RestConfig}
    {k : KubeClient} {e : GoError}
    (h1 : env.newForConfig cc = .ok k)
    (h2 : env.kubeletClientFor (GetKubeletConfig cc o.KubeletPort) = .error e) :
    runWithClientConfig env o stopCh tr ssA c cc =
      { trace := tr ++ [Event.newKubeClient, Event.newSharedInformerFactory 0,
                        Event.getKubeletConfig o.KubeletPort, Event.newKubeletClient]
        err := some (.wrap "unable to construct a client to connect to the kubelets" e)
        secureServingAfter := ssA } := by
  unfold runWithClientConfig
  simp [h1, h2]

lemma rwcc_sourceManagerErr {env : Env} {o : MetricsServerOptions} {stopCh : Nat}
    {tr : List Event} {ssA : SecureServingOptions} {c : Config} {cc : RestConfig}
    {k : KubeClient} {kc : KubeletClient} {e : GoError}
    (h1 : env.newForConfig cc = .ok k)
    (h2 : env.kubeletClientFor (GetKubeletConfig cc o.KubeletPort) = .ok kc)
    (h3 : env.newSourceManager
        (env.newSummaryProvider (env.nodesLister (env.newSharedInformerFactory k 0)) kc)
        env.defaultMetricsScrapeTimeout = .error e) :
    runWithClientConfig env o stopCh tr ssA c cc =
      { trace := tr ++ [Event.newKubeClient, Event.newSharedInformerFactory 0,
                        Event.getKubeletConfig o.KubeletPort, Event.newKubeletClient,
                        Event.newSummaryProvider, Event.newSourceManager]
        err := some (.wrap "unable to initialize source manager" e)
        secureServingAfter := ssA } := by
  unfold runWithClientConfig
  simp [h1, h2, h3]

lemma rwcc_completeErr {env : Env} {o : MetricsServerOptions} {stopCh : Nat}
    {tr : List Event} {ssA : SecureServingOptions} {c : Config} {cc : RestConfig}
    {k : KubeClient} {kc : KubeletClient} {sm : SourceManager} {e : GoError}
    (h1 : env.newForConfig cc = .ok k)
    (h2 : env.kubeletClientFor (GetKubeletConfig cc o.KubeletPort) = .ok kc)
    (h3 : env.newSourceManager
        (env.newSummaryProvider (env.nodesLister (env.newSharedInformerFactory k 0)) kc)
        env.defaultMetricsScrapeTimeout = .ok sm)
    (h4 : env.completeNew
        { c with ProviderConfig :=
            { Node := some env.newSinkProvider.2, Pod := some env.newSinkProvider.2 } }
        (env.newSharedInformerFactory k 0) = .error e) :
    runWithClientConfig env o stopCh tr ssA c cc =
      { trace := tr ++ [Event.newKubeClient, Event.newSharedInformerFactory 0,
                        Event.getKubeletConfig o.KubeletPort, Event.newKubeletClient,
                        Event.newSummaryProvider, Event.newSourceManager,
                        Event.newSinkProvider, Event.newManager o.MetricResolution,
                        Event.completeAndNew (some env.newSinkProvider.2)
                          (some env.newSinkProvider.2)]
        err := some e
        secureServingAfter := ssA } := by
  unfold runWithClientConfig
  simp [h1, h2, h3, h4]

lemma rwcc_ok {env : Env} {o : MetricsServerOptions} {stopCh : Nat}
    {tr : List Event} {ssA : SecureServingOptions} {c : Config} {cc : RestConfig}
    {k : KubeClient} {kc : KubeletClient} {sm : SourceManager} {srv : Server}
    (h1 : env.newForConfig cc = .ok k)
    (h2 : env.kubeletClientFor (GetKubeletConfig cc o.KubeletPort) = .ok kc)
    (h3 : env.newSourceManager
        (env.newSummaryProvider (env.nodesLister (env.newSharedInformerFactory k 0)) kc)
        env.defaultMetricsScrapeTimeout = .ok sm)
    (h4 : env.completeNew
        { c with ProviderConfig :=
            { Node := some env.newSinkProvider.2, Pod := some env.newSinkProvider.2 } }
        (env.newSharedInformerFactory k 0) = .ok srv) :
    runWithClientConfig env o stopCh tr ssA c cc =
      { trace := tr ++ [Event.newKubeClient, Event.newSharedInformerFactory 0,
                        Event.getKubeletConfig o.KubeletPort, Event.newKubeletClient,
                        Event.newSummaryProvider, Event.newSourceManager,
                        Event.newSinkProvider, Event.newManager o.MetricResolution,
                        Event.completeAndNew (some env.newSinkProvider.2)
                          (some env.newSinkProvider.2),
                        Event.addHealthzCheck "healthz",
                        Event.runUntil stopCh, Event.prepareRunRun stopCh]
        err := env.serverRun
        secureServingAfter := ssA } := by
  unfold runWithClientConfig
  simp [h1, h2, h3, h4]

lemma Config_characterization (env : Env) (o : MetricsServerOptions) :
    (∃ e, MaybeDefaultWithSelfSignedCerts env o.SecureServing "localhost" [] ["127.0.0.1"]
        = .error e ∧
      o.Config env =
        { trace := [certsEvent]
          config := none
          err := some (.wrap "error creating self-signed certificates" e)
          secureServingAfter := o.SecureServing }) ∨
    (∃ ss, MaybeDefaultWithSelfSignedCerts env o.SecureServing "localhost" [] ["127.0.0.1"]
        = .ok ss ∧
      ((∃ e, env.applySecureServing ss = .error e ∧
        o.Config env =
          { trace := [certsEvent, .applySecureServing ss]
            config := none
            err := some e
            secureServingAfter := ss }) ∨
      (∃ info, env.applySecureServing ss = .ok info ∧
        ((o.DisableAuthForTesting = true ∧
          o.Config env =
            { trace := [certsEvent, .applySecureServing ss, .setDefaultSwagger]
              config := some
                { GenericConfig :=
                    { SecureServing := some info
                      Authentication := none
                      Authorization := none
                      SwaggerConfigSet := true
                      EnableMetrics := false }
                  ProviderConfig := { Node := none, Pod := none } }
              err := none
              secureServingAfter := ss }) ∨
        (o.DisableAuthForTesting = false ∧
          ((∃ e, env.applyAuthentication o.Authentication (some info) = .error e ∧
            o.Config env =
              { trace := [certsEvent, .applySecureServing ss,
                          .applyAuthentication (some info)]
                config := none
                err := some e
                secureServingAfter := ss }) ∨
          (∃ a, env.applyAuthentication o.Authentication (some info) = .ok a ∧
            ((∃ e, env.applyAuthorization o.Authorization = .error e ∧
              o.Config env =
                { trace := [certsEvent, .applySecureServing ss,
                            .applyAuthentication (some info), .applyAuthorization]
                  config := none
                  err := some e
                  secureServingAfter := ss }) ∨
            (∃ z, env.applyAuthorization o.Authorization = .ok z ∧
              o.Config env =
                { trace := [certsEvent, .applySecureServing ss,
                            .applyAuthentication (some info), .applyAuthorization,
                            .setDefaultSwagger]
                  config := some
                    { GenericConfig :=
                        { SecureServing := some info
                          Authentication := some a
                          Authorization := some z
                          SwaggerConfigSet := true
                          EnableMetrics := false }
                      ProviderConfig := { Node := none, Pod := none } }
                  err := none
                  secureServingAfter := ss }))))))))) := by
  rcases hgen : MaybeDefaultWithSelfSignedCerts env o.SecureServing "localhost" [] ["127.0.0.1"]
    with e | ss
  · exact Or.inl ⟨e, rfl, Config_genErr hgen⟩
  · refine Or.inr ⟨ss, rfl, ?_⟩
    rcases happ : env.applySecureServing ss with e | info
    · exact Or.inl ⟨e, rfl, Config_applyErr hgen happ⟩
    · refine Or.inr ⟨info, rfl, ?_⟩
      cases hd : o.DisableAuthForTesting
      · refine Or.inr ⟨rfl, ?_⟩
        rcases hauthn : env.applyAuthentication o.Authentication (some info) with e | a
        · exact Or.inl ⟨e, rfl, Config_authnErr hgen happ hd hauthn⟩
        · refine Or.inr ⟨a, rfl, ?_⟩
          rcases hauthz : env.applyAuthorization o.Authorization with e | z
          · exact Or.inl ⟨e, rfl, Config_authzErr hgen happ hd hauthn hauthz⟩
          · exact Or.inr ⟨z, rfl, Config_ok hgen happ hd hauthn hauthz⟩
      · exact Or.inl ⟨rfl, Config_noAuth hgen happ hd⟩

lemma rwcc_characterization (env : Env) (o : MetricsServerOptions) (stopCh : Nat)
    (tr : List Event) (ssA : SecureServingOptions) (c : Config) (cc : RestConfig) :
    (∃ e, env.newForConfig cc = .error e ∧
      runWithClientConfig env o stopCh tr ssA c cc =
        { trace := tr ++ [Event.newKubeClient]
          err := some (.wrap "unable to construct lister client" e)
          secureServingAfter := ssA }) ∨
    (∃ k, env.newForConfig cc = .ok k ∧
      ((∃ e, env.kubeletClientFor (GetKubeletConfig cc o.KubeletPort) = .error e ∧
        runWithClientConfig env o stopCh tr ssA c cc =
          { trace := tr ++ [Event.newKubeClient, Event.newSharedInformerFactory 0,
                            Event.getKubeletConfig o.KubeletPort, Event.newKubeletClient]
            err := some (.wrap "unable to construct a client to connect to the kubelets" e)
            secureServingAfter := ssA }) ∨
      (∃ kc, env.kubeletClientFor (GetKubeletConfig cc o.KubeletPort) = .ok kc ∧
        ((∃ e, env.newSourceManager
              (env.newSummaryProvider (env.nodesLister (env.newSharedInformerFactory k 0)) kc)
              env.defaultMetricsScrapeTimeout = .error e ∧
          runWithClientConfig env o stopCh tr ssA c cc =
            { trace := tr ++ [Event.newKubeClient, Event.newSharedInformerFactory 0,
                              Event.getKubeletConfig o.KubeletPort, Event.newKubeletClient,
                              Event.newSummaryProvider, Event.newSourceManager]
              err := some (.wrap "unable to initialize source manager" e)
              secureServingAfter := ssA }) ∨
        (∃ sm, env.newSourceManager
              (env.newSummaryProvider (env.nodesLister (env.newSharedInformerFactory k 0)) kc)
              env.defaultMetricsScrapeTimeout = .ok sm ∧
          ((∃ e, env.completeNew
                { c with ProviderConfig :=
                    { Node := some env.newSinkProvider.2, Pod := some env.newSinkProvider.2 } }
                (env.newSharedInformerFactory k 0) = .error e ∧
            runWithClientConfig env o stopCh tr ssA c cc =
              { trace := tr ++ [Event.newKubeClient, Event.newSharedInformerFactory 0,
                                Event.getKubeletConfig o.KubeletPort, Event.newKubeletClient,
                                Event.newSummaryProvider, Event.newSourceManager,
                                Event.newSinkProvider, Event.newManager o.MetricResolution,
                                Event.completeAndNew (some env.newSinkProvider.2)
                                  (some env.newSinkProvider.2)]
                err := some e
                secureServingAfter := ssA }) ∨
          (∃ srv, env.completeNew
                { c with ProviderConfig :=
                    { Node := some env.newSinkProvider.2, Pod := some env.newSinkProvider.2 } }
                (env.newSharedInformerFactory k 0) = .ok srv ∧
            runWithClientConfig env o stopCh tr ssA c cc =
              { trace := tr ++ [Event.newKubeClient, Event.newSharedInformerFactory 0,
                                Event.getKubeletConfig o.KubeletPort, Event.newKubeletClient,
                                Event.newSummaryProvider, Event.newSourceManager,
                                Event.newSinkProvider, Event.newManager o.MetricResolution,
                                Event.completeAndNew (some env.newSinkProvider.2)
                                  (some env.newSinkProvider.2),
                                Event.addHealthzCheck "healthz",
                                Event.runUntil stopCh, Event.prepareRunRun stopCh]
                err := env.serverRun
                secureServingAfter := ssA }))))))) := by
  rcases h1 : env.newForConfig cc with e | k
  · exact Or.inl ⟨e, rfl, rwcc_newForConfigErr h1⟩
  · refine Or.inr ⟨k, rfl, ?_⟩
    rcases h2 : env.kubeletClientFor (GetKubeletConfig cc o.KubeletPort) with e | kc
    · exact Or.inl ⟨e, rfl, rwcc_kubeletErr h1 h2⟩
    · refine Or.inr ⟨kc, rfl, ?_⟩
      rcases h3 : env.newSourceManager
          (env.newSummaryProvider (env.nodesLister (env.newSharedInformerFactory k 0)) kc)
          env.defaultMetricsScrapeTimeout with e | sm
      · exact Or.inl ⟨e, rfl, rwcc_sourceManagerErr h1 h2 h3⟩
      · refine Or.inr ⟨sm, rfl, ?_⟩
        rcases h4 : env.completeNew
            { c with ProviderConfig :=
                { Node := some env.newSinkProvider.2, Pod := some env.newSinkProvider.2 } }
            (env.newSharedInformerFactory k 0) with e | srv
        · exact Or.inl ⟨e, rfl, rwcc_completeErr h1 h2 h3 h4⟩
        · exact Or.inr ⟨srv, rfl, rwcc_ok h1 h2 h3 h4⟩

lemma Run_eq_of_config {env : Env} {o : MetricsServerOptions} {stopCh : Nat}
    {r : ConfigResult} {e : GoError} (hc : o.Config env = r) (he : r.err = some e) :
    MetricsServerOptions.Run env o stopCh =
      { trace := r.trace, err := some e, secureServingAfter := r.secureServingAfter } := by
  unfold MetricsServerOptions.Run
  simp [hc, he]

lemma Run_eq_of_config_ok {env : Env} {o : MetricsServerOptions} {stopCh : Nat}
    {r : ConfigResult} {c : Config} (hc : o.Config env = r) (he : r.err = none)
    (hcfg : r.config = some c) :
    MetricsServerOptions.Run env o stopCh =
      runWithConfig env o stopCh r.trace r.secureServingAfter c := by
  unfold MetricsServerOptions.Run
  simp [hc, he, hcfg]

lemma clientEvent_cases (o : MetricsServerOptions) :
    clientEvent o = Event.loadKubeconfigFile o.Kubeconfig ∨
      clientEvent o = Event.resolveInClusterConfig := by
  unfold clientEvent
  split
  · exact Or.inl rfl
  · exact Or.inr rfl

lemma rwc_characterization (env : Env) (o : MetricsServerOptions) (stopCh : Nat)
    (tr : List Event) (ssA : SecureServingOptions) (c : Config) :
    (∃ e, clientConfigOf env o = .error e ∧
      runWithConfig env o stopCh tr ssA c =
        { trace := tr ++ [Event.setEnableMetrics, clientEvent o]
          err := some (.wrap "unable to construct lister client config" e)
          secureServingAfter := ssA }) ∨
    (∃ cc, clientConfigOf env o = .ok cc ∧
      runWithConfig env o stopCh tr ssA c =
        runWithClientConfig env o stopCh (tr ++ [Event.setEnableMetrics, clientEvent o]) ssA
          { c with GenericConfig := { c.GenericConfig with EnableMetrics := true } } cc) := by
  by_cases hk : o.Kubeconfig.length > 0
  · rcases h : env.loadKubeconfig o.Kubeconfig with e | cc
    · exact Or.inl ⟨e, by simp [clientConfigOf, hk, h],
        by rw [runWithConfig_loadErr hk h]; simp [clientEvent, hk]⟩
    · exact Or.inr ⟨cc, by simp [clientConfigOf, hk, h],
        by rw [runWithConfig_loadOk hk h]; simp [clientEvent, hk]⟩
  · have hk0 : o.Kubeconfig = "" := by
      cases hkc : o.Kubeconfig with
      | mk data =>
        rw [hkc] at hk
        simp only [String.length, Nat.pos_iff_ne_zero, ne_eq, not_not,
          List.length_eq_zero] at hk
        simp [hk]
    rcases h : env.inClusterConfig with e | cc
    · exact Or.inl ⟨e, by simp [clientConfigOf, hk, h],
        by rw [runWithConfig_inClusterErr hk0 h]; simp [clientEvent, hk]⟩
    · exact Or.inr ⟨cc, by simp [clientConfigOf, hk, h],
        by rw [runWithConfig_inClusterOk hk0 h]; simp [clientEvent, hk]⟩

lemma rwcc_eq_elided (env : Env) (o : MetricsServerOptions) (stopCh : Nat)
    (tr : List Event) (ssA : SecureServingOptions) (c : Config) (cc : RestConfig) :
    runWithClientConfig env o stopCh tr ssA c cc =
      runWithClientConfigElided env o stopCh tr ssA c cc := by
  unfold runWithClientConfig runWithClientConfigElided
  rcases h1 : env.newForConfig cc with e | k <;> simp only [h1]

lemma rwc_eq_elided (env : Env) (o : MetricsServerOptions) (stopCh : Nat)
    (tr : List Event) (ssA : SecureServingOptions) (c : Config) :
    runWithConfig env o stopCh tr ssA c = runWithConfigElided env o stopCh tr ssA c := by
  unfold runWithConfig runWithConfigElided
  by_cases hk : o.Kubeconfig.length > 0
  · simp only [if_pos hk]
    rcases h : env.loadKubeconfig o.Kubeconfig with e | cc <;> simp only [h]
    apply rwcc_eq_elided
  · simp only [if_neg hk]
    rcases h : env.inClusterConfig with e | cc <;> simp only [h]
    apply rwcc_eq_elided

/-- C10: the error check that immediately follows the synchronization manager's
construction (the branch returning `"unable to create main manager"`) is
unreachable: at that point the Go error variable necessarily holds the nil
error left by the already-checked `NewSourceManager` call, since `NewManager`
assigns no error; hence `Run` is unchanged when that check is removed, and in
particular never returns that branch's error. -/
theorem run_manager_error_check_unreachable (env : Env) (o : MetricsServerOptions)
    (stopCh : Nat) :
    MetricsServerOptions.Run env o stopCh = RunElided env o stopCh := by
  unfold MetricsServerOptions.Run RunElided
  rcases he : (o.Config env).err with _ | e <;> simp only [he]
  rcases hc : (o.Config env).config with _ | c <;> simp only [hc]
  apply rwc_eq_elided

lemma Run_configNone {env : Env} {o : MetricsServerOptions} {stopCh : Nat}
    (he : (o.Config env).err = none) (hc : (o.Config env).config = none) :
    MetricsServerOptions.Run env o stopCh =
      { trace := (o.Config env).trace
        err := some (.base "nil pointer dereference")
        secureServingAfter := (o.Config env).secureServingAfter } := by
  unfold MetricsServerOptions.Run
  simp [he, hc]

lemma Config_trace_steps (env : Env) (o : MetricsServerOptions) :
    ∀ ev ∈ (o.Config env).trace, ev.isConfigStep = true := by
  rcases Config_characterization env o with
    ⟨e, hgen, hc⟩ | ⟨ss, hgen, ⟨e, happ, hc⟩ | ⟨info, happ, ⟨hd, hc⟩ |
      ⟨hd, ⟨e, hauthn, hc⟩ | ⟨a, hauthn, ⟨e, hauthz, hc⟩ | ⟨z, hauthz, hc⟩⟩⟩⟩⟩ <;>
    rw [hc] <;> simp [certsEvent, Event.isConfigStep]

lemma rwcc_mem_cases {env : Env} {o : MetricsServerOptions} {stopCh : Nat}
    {tr : List Event} {ssA : SecureServingOptions} {c : Config} {cc : RestConfig} {ev : Event}
    (h : ev ∈ (runWithClientConfig env o stopCh tr ssA c cc).trace) :
    ev ∈ tr ∨ ev = Event.newKubeClient ∨ ev = Event.newSharedInformerFactory 0 ∨
    ev = Event.getKubeletConfig o.KubeletPort ∨ ev = Event.newKubeletClient ∨
    ev = Event.newSummaryProvider ∨ ev = Event.newSourceManager ∨
    ev = Event.newSinkProvider ∨ ev = Event.newManager o.MetricResolution ∨
    ev = Event.completeAndNew (some env.newSinkProvider.2) (some env.newSinkProvider.2) ∨
    ev = Event.addHealthzCheck "healthz" ∨ ev = Event.runUntil stopCh ∨
    ev = Event.prepareRunRun stopCh := by
  rcases rwcc_characterization env o stopCh tr ssA c cc with
    ⟨e, h1, hr⟩ | ⟨k, h1, ⟨e, h2, hr⟩ | ⟨kc, h2, ⟨e, h3, hr⟩ |
      ⟨sm, h3, ⟨e, h4, hr⟩ | ⟨srv, h4, hr⟩⟩⟩⟩ <;>
    rw [hr] at h <;> simp only [List.mem_append, List.mem_cons,
      List.not_mem_nil, or_false] at h <;> tauto

lemma rwc_mem_cases {env : Env} {o : MetricsServerOptions} {stopCh : Nat}
    {tr : List Event} {ssA : SecureServingOptions} {c : Config} {ev : Event}
    (h : ev ∈ (runWithConfig env o stopCh tr ssA c).trace) :
    ev ∈ tr ∨ ev = Event.setEnableMetrics ∨ ev = Event.loadKubeconfigFile o.Kubeconfig ∨
    ev = Event.resolveInClusterConfig ∨
    ev = Event.newKubeClient ∨ ev = Event.newSharedInformerFactory 0 ∨
    ev = Event.getKubeletConfig o.KubeletPort ∨ ev = Event.newKubeletClient ∨
    ev = Event.newSummaryProvider ∨ ev = Event.newSourceManager ∨
    ev = Event.newSinkProvider ∨ ev = Event.newManager o.MetricResolution ∨
    ev = Event.completeAndNew (some env.newSinkProvider.2) (some env.newSinkProvider.2) ∨
    ev = Event.addHealthzCheck "healthz" ∨ ev = Event.runUntil stopCh ∨
    ev = Event.prepareRunRun stopCh := by
  rcases rwc_characterization env o stopCh tr ssA c with ⟨e, hcc, hr⟩ | ⟨cc, hcc, hr⟩
  · rw [hr] at h
    simp only [List.mem_append, List.mem_cons, List.not_mem_nil, or_false] at h
    rcases clientEvent_cases o with hce | hce <;> rw [hce] at h <;> tauto
  · rw [hr] at h
    rcases rwcc_mem_cases h with hm | hm
    · simp only [List.mem_append, List.mem_cons, List.not_mem_nil, or_false] at hm
      rcases clientEvent_cases o with hce | hce <;> rw [hce] at hm <;> tauto
    · tauto

lemma Run_mem_cases {env : Env} {o : MetricsServerOptions} {stopCh : Nat} {ev : Event}
    (h : ev ∈ (MetricsServerOptions.Run env o stopCh).trace) :
    ev.isConfigStep = true ∨ ev = Event.setEnableMetrics ∨
    ev = Event.loadKubeconfigFile o.Kubeconfig ∨ ev = Event.resolveInClusterConfig ∨
    ev = Event.newKubeClient ∨ ev = Event.newSharedInformerFactory 0 ∨
    ev = Event.getKubeletConfig o.KubeletPort ∨ ev = Event.newKubeletClient ∨
    ev = Event.newSummaryProvider ∨ ev = Event.newSourceManager ∨
    ev = Event.newSinkProvider ∨ ev = Event.newManager o.MetricResolution ∨
    ev = Event.completeAndNew (some env.newSinkProvider.2) (some env.newSinkProvider.2) ∨
    ev = Event.addHealthzCheck "healthz" ∨ ev = Event.runUntil stopCh ∨
    ev = Event.prepareRunRun stopCh := by
  rcases he : (o.Config env).err with _ | e
  · rcases hcfg : (o.Config env).config with _ | c
    · rw [Run_configNone he hcfg] at h
      exact Or.inl (Config_trace_steps env o ev h)
    · rw [Run_configOk he hcfg] at h
      rcases rwc_mem_cases h with hm | hm
      · exact Or.inl (Config_trace_steps env o ev hm)
      · tauto
  · rw [Run_configErr he] at h
    exact Or.inl (Config_trace_steps env o ev h)

/-- C8: the shared informer factory is always constructed with a periodic-resync
interval of exactly zero: every informer-factory construction event in any `Run`
trace records resync `0`. -/
theorem informer_factory_zero_resync (env : Env) (o : MetricsServerOptions)
    (stopCh : Nat) (resync : Nat)
    (h : Event.newSharedInformerFactory resync ∈
      (MetricsServerOptions.Run env o stopCh).trace) :
    resync = 0 := by
  have hm := Run_mem_cases h
  simp [Event.isConfigStep] at hm
  exact hm

/-- Witness for C8 at a concrete input: the fully-succeeding environment with
default options reaches the informer-factory construction. -/
theorem informer_factory_zero_resync_witness : (0 : Nat) = 0 :=
  informer_factory_zero_resync envOk NewMetricsServerOptions 0 0 (by decide)

/-- C3: whenever the server configuration is completed into a server object, the
node-metrics and pod-metrics provider slots hold the same provider instance —
the one returned by the sink/provider constructor. -/
theorem provider_slots_same_instance (env : Env) (o : MetricsServerOptions)
    (stopCh : Nat) (node pod : Option MetricsProvider)
    (h : Event.completeAndNew node pod ∈ (MetricsServerOptions.Run env o stopCh).trace) :
    node = some env.newSinkProvider.2 ∧ pod = some env.newSinkProvider.2 := by
  have hm := Run_mem_cases h
  simp [Event.isConfigStep] at hm
  exact ⟨hm.1, hm.2⟩

/-- Witness for C3 at a concrete input: the fully-succeeding environment with
default options reaches the completion step with both slots set to provider 13. -/
theorem provider_slots_same_instance_witness :
    (some 13 : Option MetricsProvider) = some 13 ∧
      (some 13 : Option MetricsProvider) = some 13 :=
  provider_slots_same_instance envOk NewMetricsServerOptions 0 (some 13) (some 13) (by decide)

lemma clientEvent_not_startLoop (o : MetricsServerOptions) :
    Event.isStartLoop (clientEvent o) = false := by
  rcases clientEvent_cases o with h | h <;> rw [h] <;> rfl

lemma rwcc_startLoop (env : Env) (o : MetricsServerOptions) (stopCh : Nat)
    (tr : List Event) (ssA : SecureServingOptions) (c : Config) (cc : RestConfig) :
    ((runWithClientConfig env o stopCh tr ssA c cc).trace.filter Event.isStartLoop =
        tr.filter Event.isStartLoop ∧
      (runWithClientConfig env o stopCh tr ssA c cc).err.isSome = true) ∨
    ((runWithClientConfig env o stopCh tr ssA c cc).trace.filter Event.isStartLoop =
        tr.filter Event.isStartLoop ++ [Event.runUntil stopCh, Event.prepareRunRun stopCh] ∧
      (runWithClientConfig env o stopCh tr ssA c cc).err = env.serverRun) := by
  rcases rwcc_characterization env o stopCh tr ssA c cc with
    ⟨e, h1, hr⟩ | ⟨k, h1, ⟨e, h2, hr⟩ | ⟨kc, h2, ⟨e, h3, hr⟩ |
      ⟨sm, h3, ⟨e, h4, hr⟩ | ⟨srv, h4, hr⟩⟩⟩⟩ <;>
    rw [hr] <;> simp [List.filter_append, Event.isStartLoop]

lemma rwc_startLoop (env : Env) (o : MetricsServerOptions) (stopCh : Nat)
    (tr : List Event) (ssA : SecureServingOptions) (c : Config) :
    ((runWithConfig env o stopCh tr ssA c).trace.filter Event.isStartLoop =
        tr.filter Event.isStartLoop ∧
      (runWithConfig env o stopCh tr ssA c).err.isSome = true) ∨
    ((runWithConfig env o stopCh tr ssA c).trace.filter Event.isStartLoop =
        tr.filter Event.isStartLoop ++ [Event.runUntil stopCh, Event.prepareRunRun stopCh] ∧
      (runWithConfig env o stopCh tr ssA c).err = env.serverRun) := by
  rcases rwc_characterization env o stopCh tr ssA c with ⟨e, hcc, hr⟩ | ⟨cc, hcc, hr⟩
  · rcases clientEvent_cases o with hce | hce <;> rw [hr, hce] <;>
      simp [List.filter_append, Event.isStartLoop]
  · rw [hr]
    have htr : (tr ++ [Event.setEnableMetrics, clientEvent o]).filter Event.isStartLoop =
        tr.filter Event.isStartLoop := by
      rcases clientEvent_cases o with hce | hce <;> rw [hce] <;>
        simp [List.filter_append, Event.isStartLoop]
    rcases rwcc_startLoop env o stopCh (tr ++ [Event.setEnableMetrics, clientEvent o]) ssA
        { c with GenericConfig := { c.GenericConfig with EnableMetrics := true } } cc with
      ⟨hf, he⟩ | ⟨hf, he⟩
    · exact Or.inl ⟨by rw [hf, htr], he⟩
    · exact Or.inr ⟨by rw [hf, htr], he⟩

lemma Config_no_startLoop (env : Env) (o : MetricsServerOptions) :
    (o.Config env).trace.filter Event.isStartLoop = [] := by
  rcases Config_characterization env o with
    ⟨e, hgen, hc⟩ | ⟨ss, hgen, ⟨e, happ, hc⟩ | ⟨info, happ, ⟨hd, hc⟩ |
      ⟨hd, ⟨e, hauthn, hc⟩ | ⟨a, hauthn, ⟨e, hauthz, hc⟩ | ⟨z, hauthz, hc⟩⟩⟩⟩⟩ <;>
    rw [hc] <;> simp [certsEvent, Event.isStartLoop]

/-- C2: `Run` either fails before starting anything — no loop-start event in the
trace and an error returned, and a configuration-stage error is returned
unmodified — or it starts the synchronization manager's periodic loop and then
the server's accept loop, in that order, both observing the same stop channel,
and returns the server loop's result. -/
theorem run_starts_manager_before_server (env : Env) (o : MetricsServerOptions)
    (stopCh : Nat) :
    (((MetricsServerOptions.Run env o stopCh).trace.filter Event.isStartLoop = [] ∧
        (MetricsServerOptions.Run env o stopCh).err.isSome = true) ∨
      ((MetricsServerOptions.Run env o stopCh).trace.filter Event.isStartLoop =
          [Event.runUntil stopCh, Event.prepareRunRun stopCh] ∧
        (MetricsServerOptions.Run env o stopCh).err = env.serverRun)) ∧
    (∀ e, (o.Config env).err = some e →
      (MetricsServerOptions.Run env o stopCh).err = some e ∧
      (MetricsServerOptions.Run env o stopCh).trace.filter Event.isStartLoop = []) := by
  constructor
  · rcases he : (o.Config env).err with _ | e
    · rcases hcfg : (o.Config env).config with _ | c
      · rw [Run_configNone he hcfg]
        exact Or.inl ⟨Config_no_startLoop env o, rfl⟩
      · rw [Run_configOk he hcfg]
        rcases rwc_startLoop env o stopCh (o.Config env).trace
            (o.Config env).secureServingAfter c with ⟨hf, herr⟩ | ⟨hf, herr⟩
        · exact Or.inl ⟨by rw [hf, Config_no_startLoop], herr⟩
        · exact Or.inr ⟨by rw [hf, Config_no_startLoop]; rfl, herr⟩
    · rw [Run_configErr he]
      exact Or.inl ⟨Config_no_startLoop env o, rfl⟩
  · intro e he
    rw [Run_configErr he]
    exact ⟨rfl, Config_no_startLoop env o⟩

/-- Witness for C2 at a concrete input: with a failing certificate generation,
`Run` returns the configuration error and starts no loop. -/
theorem run_starts_manager_before_server_witness :
    (MetricsServerOptions.Run envGenErr NewMetricsServerOptions 0).err =
        some (.wrap "error creating self-signed certificates" (.base "keygen failed")) ∧
      (MetricsServerOptions.Run envGenErr NewMetricsServerOptions 0).trace.filter
        Event.isStartLoop = [] :=
  (run_starts_manager_before_server envGenErr NewMetricsServerOptions 0).2
    (.wrap "error creating self-signed certificates" (.base "keygen failed")) (by decide)

/-- C6: `Config` never returns a partial result: the returned config is nil
whenever the error is non-nil, a non-nil config comes with a nil error and is
returned exactly when every step succeeded, and each failing step's error is the
one returned (the certificate step's error wrapped, the application steps'
errors as-is). -/
theorem config_no_partial_result (env : Env) (o : MetricsServerOptions) :
    ((o.Config env).err.isSome = true → (o.Config env).config = none) ∧
    ((o.Config env).config.isSome = true → (o.Config env).err = none) ∧
    ((o.Config env).config.isSome = true ↔
      (∃ ss, MaybeDefaultWithSelfSignedCerts env o.SecureServing "localhost" [] ["127.0.0.1"]
          = .ok ss ∧
        ∃ info, env.applySecureServing ss = .ok info ∧
          (o.DisableAuthForTesting = true ∨
            (∃ a, env.applyAuthentication o.Authentication (some info) = .ok a ∧
              ∃ z, env.applyAuthorization o.Authorization = .ok z)))) ∧
    (∀ e, MaybeDefaultWithSelfSignedCerts env o.SecureServing "localhost" [] ["127.0.0.1"]
        = .error e →
      (o.Config env).err = some (.wrap "error creating self-signed certificates" e)) ∧
    (∀ ss e, MaybeDefaultWithSelfSignedCerts env o.SecureServing "localhost" [] ["127.0.0.1"]
        = .ok ss →
      env.applySecureServing ss = .error e → (o.Config env).err = some e) ∧
    (∀ ss info e,
      MaybeDefaultWithSelfSignedCerts env o.SecureServing "localhost" [] ["127.0.0.1"]
        = .ok ss →
      env.applySecureServing ss = .ok info → o.DisableAuthForTesting = false →
      env.applyAuthentication o.Authentication (some info) = .error e →
      (o.Config env).err = some e) ∧
    (∀ ss info a e,
      MaybeDefaultWithSelfSignedCerts env o.SecureServing "localhost" [] ["127.0.0.1"]
        = .ok ss →
      env.applySecureServing ss = .ok info → o.DisableAuthForTesting = false →
      env.applyAuthentication o.Authentication (some info) = .ok a →
      env.applyAuthorization o.Authorization = .error e →
      (o.Config env).err = some e) := by
  refine ⟨?_, ?_, ⟨?_, ?_⟩, ?_, ?_, ?_, ?_⟩
  · rcases Config_characterization env o with
      ⟨e, hgen, hc⟩ | ⟨ss, hgen, ⟨e, happ, hc⟩ | ⟨info, happ, ⟨hd, hc⟩ |
        ⟨hd, ⟨e, hauthn, hc⟩ | ⟨a, hauthn, ⟨e, hauthz, hc⟩ | ⟨z, hauthz, hc⟩⟩⟩⟩⟩ <;>
      rw [hc] <;> simp
  · rcases Config_characterization env o with
      ⟨e, hgen, hc⟩ | ⟨ss, hgen, ⟨e, happ, hc⟩ | ⟨info, happ, ⟨hd, hc⟩ |
        ⟨hd, ⟨e, hauthn, hc⟩ | ⟨a, hauthn, ⟨e, hauthz, hc⟩ | ⟨z, hauthz, hc⟩⟩⟩⟩⟩ <;>
      rw [hc] <;> simp
  · intro hs
    rcases Config_characterization env o with
      ⟨e, hgen, hc⟩ | ⟨ss, hgen, ⟨e, happ, hc⟩ | ⟨info, happ, ⟨hd, hc⟩ |
        ⟨hd, ⟨e, hauthn, hc⟩ | ⟨a, hauthn, ⟨e, hauthz, hc⟩ | ⟨z, hauthz, hc⟩⟩⟩⟩⟩ <;>
      rw [hc] at hs <;> simp at hs
    · exact ⟨ss, hgen, info, happ, Or.inl hd⟩
    · exact ⟨ss, hgen, info, happ, Or.inr ⟨a, hauthn, z, hauthz⟩⟩
  · rintro ⟨ss, hgen, info, happ, hd | ⟨a, hauthn, z, hauthz⟩⟩
    · rw [Config_noAuth hgen happ hd]
      rfl
    · cases hd : o.DisableAuthForTesting
      · rw [Config_ok hgen happ hd hauthn hauthz]
        rfl
      · rw [Config_noAuth hgen happ hd]
        rfl
  · intro e hgen
    rw [Config_genErr hgen]
  · intro ss e hgen happ
    rw [Config_applyErr hgen happ]
  · intro ss info e hgen happ hd hauthn
    rw [Config_authnErr hgen happ hd hauthn]
  · intro ss info a e hgen happ hd hauthn hauthz
    rw [Config_authzErr hgen happ hd hauthn hauthz]

/-- Witness for C6 at a concrete input: a failing secure-serving application
makes `Config` return that error unwrapped, and (by the confirmed theorem) a
nil config. -/
theorem config_no_partial_result_witness :
    (MetricsServerOptions.Config envApplyErr NewMetricsServerOptions).err =
      some (.base "apply failed") :=
  (config_no_partial_result envApplyErr NewMetricsServerOptions).2.2.2.2.1
    { certFile := "apiserver.crt", keyFile := "apiserver.key" } (.base "apply failed")
    rfl rfl

/-- C1: configuration assembly performs its steps in the fixed order: the
self-signed-certificate defaulting for hostname `"localhost"` and loopback IP
`127.0.0.1` is always the first step; with the test bypass flag set no
authentication/authorization step is observed; any authentication application
reads the secure-serving configuration populated by the already-completed
secure-serving application step (it observes `some info`, the value that step
produced, and follows it in the trace); and any authorization application
follows the authentication application. -/
theorem config_assembly_order (env : Env) (o : MetricsServerOptions) :
    (∃ rest, (o.Config env).trace = certsEvent :: rest) ∧
    (o.DisableAuthForTesting = true →
      (o.Config env).trace.filter Event.isAuthStep = []) ∧
    (∀ ssv, Event.applyAuthentication ssv ∈ (o.Config env).trace →
      o.DisableAuthForTesting = false ∧
      ∃ ss info,
        MaybeDefaultWithSelfSignedCerts env o.SecureServing "localhost" [] ["127.0.0.1"]
          = .ok ss ∧
        env.applySecureServing ss = .ok info ∧ ssv = some info ∧
        ((o.Config env).trace.filter Event.isServingAuthStep =
            [.applySecureServing ss, .applyAuthentication (some info)] ∨
          (o.Config env).trace.filter Event.isServingAuthStep =
            [.applySecureServing ss, .applyAuthentication (some info),
              .applyAuthorization])) ∧
    (Event.applyAuthorization ∈ (o.Config env).trace →
      ∃ ss info, env.applySecureServing ss = .ok info ∧
        (o.Config env).trace.filter Event.isServingAuthStep =
          [.applySecureServing ss, .applyAuthentication (some info),
            .applyAuthorization]) := by
  refine ⟨?_, ?_, ?_, ?_⟩
  · rcases Config_characterization env o with
      ⟨e, hgen, hc⟩ | ⟨ss, hgen, ⟨e, happ, hc⟩ | ⟨info, happ, ⟨hd, hc⟩ |
        ⟨hd, ⟨e, hauthn, hc⟩ | ⟨a, hauthn, ⟨e, hauthz, hc⟩ | ⟨z, hauthz, hc⟩⟩⟩⟩⟩ <;>
      rw [hc] <;> exact ⟨_, rfl⟩
  · rcases Config_characterization env o with
      ⟨e, hgen, hc⟩ | ⟨ss, hgen, ⟨e, happ, hc⟩ | ⟨info, happ, ⟨hd, hc⟩ |
        ⟨hd, ⟨e, hauthn, hc⟩ | ⟨a, hauthn, ⟨e, hauthz, hc⟩ | ⟨z, hauthz, hc⟩⟩⟩⟩⟩ <;>
      intro hdt <;> simp_all [certsEvent, Event.isAuthStep]
  · intro ssv hmem
    rcases Config_characterization env o with
      ⟨e, hgen, hc⟩ | ⟨ss, hgen, ⟨e, happ, hc⟩ | ⟨info, happ, ⟨hd, hc⟩ |
        ⟨hd, ⟨e, hauthn, hc⟩ | ⟨a, hauthn, ⟨e, hauthz, hc⟩ | ⟨z, hauthz, hc⟩⟩⟩⟩⟩ <;>
      rw [hc] at hmem ⊢ <;> simp only [certsEvent, List.mem_cons, List.not_mem_nil,
        or_false] at hmem
    · simp at hmem
    · simp at hmem
    · simp at hmem
    · simp at hmem
      exact ⟨hd, ss, info, hgen, happ, hmem,
        Or.inl (by simp [certsEvent, Event.isServingAuthStep])⟩
    · simp at hmem
      exact ⟨hd, ss, info, hgen, happ, hmem,
        Or.inr (by simp [certsEvent, Event.isServingAuthStep])⟩
    · simp at hmem
      exact ⟨hd, ss, info, hgen, happ, hmem,
        Or.inr (by simp [certsEvent, Event.isServingAuthStep])⟩
  · intro hmem
    rcases Config_characterization env o with
      ⟨e, hgen, hc⟩ | ⟨ss, hgen, ⟨e, happ, hc⟩ | ⟨info, happ, ⟨hd, hc⟩ |
        ⟨hd, ⟨e, hauthn, hc⟩ | ⟨a, hauthn, ⟨e, hauthz, hc⟩ | ⟨z, hauthz, hc⟩⟩⟩⟩⟩ <;>
      rw [hc] at hmem ⊢
    · simp [certsEvent] at hmem
    · simp [certsEvent] at hmem
    · simp [certsEvent] at hmem
    · simp [certsEvent] at hmem
    · exact ⟨ss, info, happ, by simp [certsEvent, Event.isServingAuthStep]⟩
    · exact ⟨ss, info, happ, by simp [certsEvent, Event.isServingAuthStep]⟩

/-- Witness for C1 at a concrete input: with the bypass flag set no
authentication/authorization step appears in the trace. -/
theorem config_assembly_order_witness :
    (MetricsServerOptions.Config envOk optsNoAuth).trace.filter Event.isAuthStep = [] :=
  (config_assembly_order envOk optsNoAuth).2.1 rfl

lemma Config_some_of_err_none (env : Env) (o : MetricsServerOptions)
    (h : (o.Config env).err = none) : ∃ c, (o.Config env).config = some c := by
  rcases Config_characterization env o with
    ⟨e, hgen, hc⟩ | ⟨ss, hgen, ⟨e, happ, hc⟩ | ⟨info, happ, ⟨hd, hc⟩ |
      ⟨hd, ⟨e, hauthn, hc⟩ | ⟨a, hauthn, ⟨e, hauthz, hc⟩ | ⟨z, hauthz, hc⟩⟩⟩⟩⟩ <;>
    rw [hc] at h ⊢ <;> simp_all

lemma rwcc_trace_append (env : Env) (o : MetricsServerOptions) (stopCh : Nat)
    (tr : List Event) (ssA : SecureServingOptions) (c : Config) (cc : RestConfig) :
    ∃ s, (runWithClientConfig env o stopCh tr ssA c cc).trace = tr ++ s := by
  rcases rwcc_characterization env o stopCh tr ssA c cc with
    ⟨e, h1, hr⟩ | ⟨k, h1, ⟨e, h2, hr⟩ | ⟨kc, h2, ⟨e, h3, hr⟩ |
      ⟨sm, h3, ⟨e, h4, hr⟩ | ⟨srv, h4, hr⟩⟩⟩⟩ <;>
    rw [hr] <;> exact ⟨_, rfl⟩

lemma rwc_mem_cases' {env : Env} {o : MetricsServerOptions} {stopCh : Nat}
    {tr : List Event} {ssA : SecureServingOptions} {c : Config} {ev : Event}
    (h : ev ∈ (runWithConfig env o stopCh tr ssA c).trace) :
    ev ∈ tr ∨ ev = Event.setEnableMetrics ∨ ev = clientEvent o ∨
    ev = Event.newKubeClient ∨ ev = Event.newSharedInformerFactory 0 ∨
    ev = Event.getKubeletConfig o.KubeletPort ∨ ev = Event.newKubeletClient ∨
    ev = Event.newSummaryProvider ∨ ev = Event.newSourceManager ∨
    ev = Event.newSinkProvider ∨ ev = Event.newManager o.MetricResolution ∨
    ev = Event.completeAndNew (some env.newSinkProvider.2) (some env.newSinkProvider.2) ∨
    ev = Event.addHealthzCheck "healthz" ∨ ev = Event.runUntil stopCh ∨
    ev = Event.prepareRunRun stopCh := by
  rcases rwc_characterization env o stopCh tr ssA c with ⟨e, hcc, hr⟩ | ⟨cc, hcc, hr⟩
  · rw [hr] at h
    simp only [List.mem_append, List.mem_cons, List.not_mem_nil, or_false] at h
    tauto
  · rw [hr] at h
    rcases rwcc_mem_cases h with hm | hm
    · simp only [List.mem_append, List.mem_cons, List.not_mem_nil, or_false] at hm
      tauto
    · tauto

lemma Run_mem_cases' {env : Env} {o : MetricsServerOptions} {stopCh : Nat} {ev : Event}
    (h : ev ∈ (MetricsServerOptions.Run env o stopCh).trace) :
    ev.isConfigStep = true ∨ ev = Event.setEnableMetrics ∨ ev = clientEvent o ∨
    ev = Event.newKubeClient ∨ ev = Event.newSharedInformerFactory 0 ∨
    ev = Event.getKubeletConfig o.KubeletPort ∨ ev = Event.newKubeletClient ∨
    ev = Event.newSummaryProvider ∨ ev = Event.newSourceManager ∨
    ev = Event.newSinkProvider ∨ ev = Event.newManager o.MetricResolution ∨
    ev = Event.completeAndNew (some env.newSinkProvider.2) (some env.newSinkProvider.2) ∨
    ev = Event.addHealthzCheck "healthz" ∨ ev = Event.runUntil stopCh ∨
    ev = Event.prepareRunRun stopCh := by
  rcases he : (o.Config env).err with _ | e
  · rcases hcfg : (o.Config env).config with _ | c
    · rw [Run_configNone he hcfg] at h
      exact Or.inl (Config_trace_steps env o ev h)
    · rw [Run_configOk he hcfg] at h
      rcases rwc_mem_cases' h with hm | hm
      · exact Or.inl (Config_trace_steps env o ev hm)
      · tauto
  · rw [Run_configErr he] at h
    exact Or.inl (Config_trace_steps env o ev h)

/-- C4 counterexample: at a fully-succeeding environment with default options,
configuration assembly succeeds and sets the swagger default, but its trace
contains no feature-gate application step — `Config` has no such sub-step. -/
theorem config_feature_gate_counterexample :
    ((MetricsServerOptions.Config envOk NewMetricsServerOptions).trace.contains
        Event.applyFeatures) = false ∧
      (MetricsServerOptions.Config envOk NewMetricsServerOptions).err = none ∧
      ((MetricsServerOptions.Config envOk NewMetricsServerOptions).trace.contains
        Event.setDefaultSwagger) = true := by
  decide

/-- C4 amended: configuration assembly never applies feature-gate configuration;
on success the assembly ends with setting the swagger default (the last step
after authentication/authorization delegation). -/
theorem config_never_applies_feature_gates (env : Env) (o : MetricsServerOptions) :
    ((o.Config env).trace.contains Event.applyFeatures) = false ∧
    ((o.Config env).err = none →
      (o.Config env).trace.getLast? = some Event.setDefaultSwagger) := by
  rcases Config_characterization env o with
    ⟨e, hgen, hc⟩ | ⟨ss, hgen, ⟨e, happ, hc⟩ | ⟨info, happ, ⟨hd, hc⟩ |
      ⟨hd, ⟨e, hauthn, hc⟩ | ⟨a, hauthn, ⟨e, hauthz, hc⟩ | ⟨z, hauthz, hc⟩⟩⟩⟩⟩ <;>
    rw [hc]
  · exact ⟨rfl, fun he => Option.noConfusion he⟩
  · exact ⟨rfl, fun he => Option.noConfusion he⟩
  · exact ⟨rfl, fun _ => rfl⟩
  · exact ⟨rfl, fun he => Option.noConfusion he⟩
  · exact ⟨rfl, fun he => Option.noConfusion he⟩
  · exact ⟨rfl, fun _ => rfl⟩

/-- Witness for the amended C4 at a concrete input: the successful assembly's
last step is the swagger default. -/
theorem config_never_applies_feature_gates_witness :
    (MetricsServerOptions.Config envOk NewMetricsServerOptions).trace.getLast? =
      some Event.setDefaultSwagger :=
  (config_never_applies_feature_gates envOk NewMetricsServerOptions).2 (by decide)

/-- C7: cluster client credential resolution follows a fixed order: when the
kubeconfig path is non-empty the client configuration is loaded from that file
(and the in-cluster branch is never observed), otherwise the ambient in-cluster
identity is resolved (and no file load is observed); failure of the taken branch
aborts `Run` with the stage-wrapped error. -/
theorem credential_resolution_order (env : Env) (o : MetricsServerOptions) (stopCh : Nat)
    (hok : (o.Config env).err = none) :
    (o.Kubeconfig.length > 0 →
      Event.loadKubeconfigFile o.Kubeconfig ∈ (MetricsServerOptions.Run env o stopCh).trace ∧
      (∀ ev ∈ (MetricsServerOptions.Run env o stopCh).trace,
        ev ≠ Event.resolveInClusterConfig) ∧
      (∀ e, env.loadKubeconfig o.Kubeconfig = .error e →
        (MetricsServerOptions.Run env o stopCh).err =
          some (.wrap "unable to construct lister client config" e))) ∧
    (o.Kubeconfig = "" →
      Event.resolveInClusterConfig ∈ (MetricsServerOptions.Run env o stopCh).trace ∧
      (∀ ev ∈ (MetricsServerOptions.Run env o stopCh).trace,
        ∀ p, ev ≠ Event.loadKubeconfigFile p) ∧
      (∀ e, env.inClusterConfig = .error e →
        (MetricsServerOptions.Run env o stopCh).err =
          some (.wrap "unable to construct lister client config" e))) := by
  obtain ⟨c, hcfg⟩ := Config_some_of_err_none env o hok
  constructor
  · intro hk
    have hce : clientEvent o = Event.loadKubeconfigFile o.Kubeconfig := by
      unfold clientEvent
      rw [if_pos hk]
    refine ⟨?_, ?_, ?_⟩
    · rw [Run_configOk hok hcfg]
      rcases rwc_characterization env o stopCh (o.Config env).trace
          (o.Config env).secureServingAfter c with ⟨e, hcc, hr⟩ | ⟨cc, hcc, hr⟩
      · rw [hr, hce]
        simp
      · rw [hr]
        obtain ⟨s, hs⟩ := rwcc_trace_append env o stopCh
          ((o.Config env).trace ++ [Event.setEnableMetrics, clientEvent o])
          (o.Config env).secureServingAfter
          { c with GenericConfig := { c.GenericConfig with EnableMetrics := true } } cc
        rw [hs, hce]
        simp
    · intro ev hev heq
      subst heq
      have hm := Run_mem_cases' hev
      rw [hce] at hm
      simp [Event.isConfigStep] at hm
    · intro e he
      rw [Run_configOk hok hcfg]
      have hcc : clientConfigOf env o = .error e := by
        unfold clientConfigOf
        rw [if_pos hk, he]
      rcases rwc_characterization env o stopCh (o.Config env).trace
          (o.Config env).secureServingAfter c with ⟨e', hcc', hr⟩ | ⟨cc, hcc', hr⟩
      · rw [hcc] at hcc'
        injection hcc' with h'
        subst h'
        rw [hr]
      · rw [hcc] at hcc'
        exact absurd hcc' (by simp)
  · intro hk
    have hkl : ¬ o.Kubeconfig.length > 0 := by
      rw [hk]
      decide
    have hce : clientEvent o = Event.resolveInClusterConfig := by
      unfold clientEvent
      rw [if_neg hkl]
    refine ⟨?_, ?_, ?_⟩
    · rw [Run_configOk hok hcfg]
      rcases rwc_characterization env o stopCh (o.Config env).trace
          (o.Config env).secureServingAfter c with ⟨e, hcc, hr⟩ | ⟨cc, hcc, hr⟩
      · rw [hr, hce]
        simp
      · rw [hr]
        obtain ⟨s, hs⟩ := rwcc_trace_append env o stopCh
          ((o.Config env).trace ++ [Event.setEnableMetrics, clientEvent o])
          (o.Config env).secureServingAfter
          { c with GenericConfig := { c.GenericConfig with EnableMetrics := true } } cc
        rw [hs, hce]
        simp
    · intro ev hev p heq
      subst heq
      have hm := Run_mem_cases' hev
      rw [hce] at hm
      simp [Event.isConfigStep] at hm
    · intro e he
      rw [Run_configOk hok hcfg]
      have hcc : clientConfigOf env o = .error e := by
        unfold clientConfigOf
        rw [if_neg hkl, he]
      rcases rwc_characterization env o stopCh (o.Config env).trace
          (o.Config env).secureServingAfter c with ⟨e', hcc', hr⟩ | ⟨cc, hcc', hr⟩
      · rw [hcc] at hcc'
        injection hcc' with h'
        subst h'
        rw [hr]
      · rw [hcc] at hcc'
        exact absurd hcc' (by simp)

/-- Witness for C7 at a concrete input: with a kubeconfig path configured and a
failing loader, `Run` aborts with the stage-wrapped error. -/
theorem credential_resolution_order_witness :
    (MetricsServerOptions.Run envLoadErr optsKubeconfig 0).err =
      some (.wrap "unable to construct lister client config" (.base "no such file")) :=
  ((credential_resolution_order envLoadErr optsKubeconfig 0 (by decide)).1
    (by decide)).2.2 (.base "no such file") rfl

/-- C5 counterexample: a configuration-assembly failure (the secure-serving
application step) reaches the caller of `Run` as the collaborator's own base
error, not wrapped with any stage name. -/
theorem error_stage_wrapping_counterexample :
    (MetricsServerOptions.Run envApplyErr NewMetricsServerOptions 0).err =
        some (.base "apply failed") ∧
      GoError.isWrapped (.base "apply failed") = false := by
  decide

/-- C5 amended: cluster-client construction and pipeline-wiring errors are
wrapped with the failing stage's name and returned immediately; within
configuration assembly only the self-signed-certificate step's error is
wrapped — the secure-serving, authentication and authorization application
steps' errors are returned to the caller as-is. -/
theorem error_stage_wrapping (env : Env) (o : MetricsServerOptions) (stopCh : Nat) :
    (∀ e, MaybeDefaultWithSelfSignedCerts env o.SecureServing "localhost" [] ["127.0.0.1"]
        = .error e →
      (MetricsServerOptions.Run env o stopCh).err =
        some (.wrap "error creating self-signed certificates" e)) ∧
    (∀ ss e, MaybeDefaultWithSelfSignedCerts env o.SecureServing "localhost" [] ["127.0.0.1"]
        = .ok ss →
      env.applySecureServing ss = .error e →
      (MetricsServerOptions.Run env o stopCh).err = some e) ∧
    (∀ ss info e,
      MaybeDefaultWithSelfSignedCerts env o.SecureServing "localhost" [] ["127.0.0.1"]
        = .ok ss →
      env.applySecureServing ss = .ok info → o.DisableAuthForTesting = false →
      env.applyAuthentication o.Authentication (some info) = .error e →
      (MetricsServerOptions.Run env o stopCh).err = some e) ∧
    (∀ ss info a e,
      MaybeDefaultWithSelfSignedCerts env o.SecureServing "localhost" [] ["127.0.0.1"]
        = .ok ss →
      env.applySecureServing ss = .ok info → o.DisableAuthForTesting = false →
      env.applyAuthentication o.Authentication (some info) = .ok a →
      env.applyAuthorization o.Authorization = .error e →
      (MetricsServerOptions.Run env o stopCh).err = some e) ∧
    (∀ e, (o.Config env).err = none → clientConfigOf env o = .error e →
      (MetricsServerOptions.Run env o stopCh).err =
        some (.wrap "unable to construct lister client config" e)) ∧
    (∀ cc e, (o.Config env).err = none → clientConfigOf env o = .ok cc →
      env.newForConfig cc = .error e →
      (MetricsServerOptions.Run env o stopCh).err =
        some (.wrap "unable to construct lister client" e)) ∧
    (∀ cc k e, (o.Config env).err = none → clientConfigOf env o = .ok cc →
      env.newForConfig cc = .ok k →
      env.kubeletClientFor (GetKubeletConfig cc o.KubeletPort) = .error e →
      (MetricsServerOptions.Run env o stopCh).err =
        some (.wrap "unable to construct a client to connect to the kubelets" e)) ∧
    (∀ cc k kc e, (o.Config env).err = none → clientConfigOf env o = .ok cc →
      env.newForConfig cc = .ok k →
      env.kubeletClientFor (GetKubeletConfig cc o.KubeletPort) = .ok kc →
      env.newSourceManager
          (env.newSummaryProvider (env.nodesLister (env.newSharedInformerFactory k 0)) kc)
          env.defaultMetricsScrapeTimeout = .error e →
      (MetricsServerOptions.Run env o stopCh).err =
        some (.wrap "unable to initialize source manager" e)) := by
  refine ⟨?_, ?_, ?_, ?_, ?_, ?_, ?_, ?_⟩
  · intro e hgen
    have hc := Config_genErr hgen
    rw [Run_eq_of_config hc rfl]
  · intro ss e hgen happ
    have hc := Config_applyErr hgen happ
    rw [Run_eq_of_config hc rfl]
  · intro ss info e hgen happ hd hauthn
    have hc := Config_authnErr hgen happ hd hauthn
    rw [Run_eq_of_config hc rfl]
  · intro ss info a e hgen happ hd hauthn hauthz
    have hc := Config_authzErr hgen happ hd hauthn hauthz
    rw [Run_eq_of_config hc rfl]
  · intro e hok hcc
    obtain ⟨c, hcfg⟩ := Config_some_of_err_none env o hok
    rw [Run_configOk hok hcfg]
    rcases rwc_characterization env o stopCh (o.Config env).trace
        (o.Config env).secureServingAfter c with ⟨e', hcc', hr⟩ | ⟨cc, hcc', hr⟩
    · rw [hcc] at hcc'
      injection hcc' with h'
      subst h'
      rw [hr]
    · rw [hcc] at hcc'
      exact absurd hcc' (by simp)
  · intro cc e hok hcc h
    obtain ⟨c, hcfg⟩ := Config_some_of_err_none env o hok
    rw [Run_configOk hok hcfg]
    rcases rwc_characterization env o stopCh (o.Config env).trace
        (o.Config env).secureServingAfter c with ⟨e', hcc', hr⟩ | ⟨cc', hcc', hr⟩
    · rw [hcc] at hcc'
      exact absurd hcc' (by simp)
    · rw [hcc] at hcc'
      injection hcc' with h'
      subst h'
      rw [hr, rwcc_newForConfigErr h]
  · intro cc k e hok hcc h1 h2
    obtain ⟨c, hcfg⟩ := Config_some_of_err_none env o hok
    rw [Run_configOk hok hcfg]
    rcases rwc_characterization env o stopCh (o.Config env).trace
        (o.Config env).secureServingAfter c with ⟨e', hcc', hr⟩ | ⟨cc', hcc', hr⟩
    · rw [hcc] at hcc'
      exact absurd hcc' (by simp)
    · rw [hcc] at hcc'
      injection hcc' with h'
      subst h'
      rw [hr, rwcc_kubeletErr h1 h2]
  · intro cc k kc e hok hcc h1 h2 h3
    obtain ⟨c, hcfg⟩ := Config_some_of_err_none env o hok
    rw [Run_configOk hok hcfg]
    rcases rwc_characterization env o stopCh (o.Config env).trace
        (o.Config env).secureServingAfter c with ⟨e', hcc', hr⟩ | ⟨cc', hcc', hr⟩
    · rw [hcc] at hcc'
      exact absurd hcc' (by simp)
    · rw [hcc] at hcc'
      injection hcc' with h'
      subst h'
      rw [hr, rwcc_sourceManagerErr h1 h2 h3]

/-- Witness for the amended C5 at a concrete input: a failing kubeconfig load is
returned wrapped with the lister-client-config stage name. -/
theorem error_stage_wrapping_witness :
    (MetricsServerOptions.Run envLoadErr optsKubeconfig 0).err =
      some (.wrap "unable to construct lister client config" (.base "no such file")) :=
  (error_stage_wrapping envLoadErr optsKubeconfig 0).2.2.2.2.1 (.base "no such file")
    (by decide) rfl

/-- C9 counterexample: with no TLS material supplied (default options, both
certificate paths empty), a successful `Config` call leaves the referenced
secure-serving options with a populated certificate path — the sub-option
structure referenced by the options is mutated by the defaulting step. -/
theorem options_immutability_counterexample :
    NewMetricsServerOptions.SecureServing.certFile = "" ∧
      (MetricsServerOptions.Config envOk NewMetricsServerOptions).err = none ∧
      (MetricsServerOptions.Config envOk NewMetricsServerOptions).secureServingAfter.certFile
        = "apiserver.crt" := by
  decide

/-- C9 amended: after being passed to `Config`, the options' fields are not
reassigned except through the self-signed-certificate defaulting step: when TLS
serving material was already supplied the secure-serving options are unchanged
by `Config`, and when both certificate paths were empty and generation succeeds
they are updated exactly by populating the two certificate paths. -/
theorem secure_serving_mutation (env : Env) (o : MetricsServerOptions) :
    (¬(o.SecureServing.certFile = "" ∧ o.SecureServing.keyFile = "") →
      (o.Config env).secureServingAfter = o.SecureServing) ∧
    (∀ cert key, o.SecureServing.certFile = "" → o.SecureServing.keyFile = "" →
      env.generateSelfSigned "localhost" [] ["127.0.0.1"] = .ok (cert, key) →
      (o.Config env).secureServingAfter =
        { o.SecureServing with certFile := cert, keyFile := key }) := by
  constructor
  · intro h
    have hgen' : MaybeDefaultWithSelfSignedCerts env o.SecureServing "localhost" []
        ["127.0.0.1"] = .ok o.SecureServing := by
      unfold MaybeDefaultWithSelfSignedCerts
      rw [if_neg h]
    rcases Config_characterization env o with
      ⟨e, hgen, hc⟩ | ⟨ss, hgen, ⟨e, happ, hc⟩ | ⟨info, happ, ⟨hd, hc⟩ |
        ⟨hd, ⟨e, hauthn, hc⟩ | ⟨a, hauthn, ⟨e, hauthz, hc⟩ | ⟨z, hauthz, hc⟩⟩⟩⟩⟩ <;>
      rw [hgen'] at hgen
    · exact absurd hgen (by simp)
    · injection hgen with h'
      subst h'
      rw [hc]
    · injection hgen with h'
      subst h'
      rw [hc]
    · injection hgen with h'
      subst h'
      rw [hc]
    · injection hgen with h'
      subst h'
      rw [hc]
    · injection hgen with h'
      subst h'
      rw [hc]
  · intro cert key h1 h2 h3
    have hgen' : MaybeDefaultWithSelfSignedCerts env o.SecureServing "localhost" []
        ["127.0.0.1"] = .ok { o.SecureServing with certFile := cert, keyFile := key } := by
      unfold MaybeDefaultWithSelfSignedCerts
      rw [if_pos ⟨h1, h2⟩, h3]
    rcases Config_characterization env o with
      ⟨e, hgen, hc⟩ | ⟨ss, hgen, ⟨e, happ, hc⟩ | ⟨info, happ, ⟨hd, hc⟩ |
        ⟨hd, ⟨e, hauthn, hc⟩ | ⟨a, hauthn, ⟨e, hauthz, hc⟩ | ⟨z, hauthz, hc⟩⟩⟩⟩⟩ <;>
      rw [hgen'] at hgen
    · exact absurd hgen (by simp)
    · injection hgen with h'
      subst h'
      rw [hc]
    · injection hgen with h'
      subst h'
      rw [hc]
    · injection hgen with h'
      subst h'
      rw [hc]
    · injection hgen with h'
      subst h'
      rw [hc]
    · injection hgen with h'
      subst h'
      rw [hc]

/-- Witness for the amended C9 at a concrete input: with TLS material already
supplied, `Config` leaves the secure-serving options unchanged. -/
theorem secure_serving_mutation_witness :
    (MetricsServerOptions.Config envOk optsWithCerts).secureServingAfter =
      optsWithCerts.SecureServing :=
  (secure_serving_mutation envOk optsWithCerts).1 (by decide)

end MetricsServer
